import Mathlib

/-!
Verification of the oanda Go client core (`api.go`): request modifiers,
client construction, request building, poll requests with entity-tag
caching, and the execute-and-decode pipeline.

The embedding is shallow: `http.Request` / `http.Response` become Lean
structures, header maps become association lists with last-set-wins `Set`
semantics, the HTTP transport (`http.Client.Do`) becomes an explicit
function `Request → TransportOutcome`, JSON bodies become an inductive
`Json` value, and Go's `error` results become `Option` / `Except` values.
-/

set_option autoImplicit false

namespace Oanda

/-- `http.Header.Get`: the value of the first entry with the given key,
or the empty string if absent. -/
def headerGet : List (String × String) → String → String
  | [], _ => ""
  | (k, v) :: rest, key => if k = key then v else headerGet rest key

/-- Entries of a header map other than the given key. -/
def headerRemove : List (String × String) → String → List (String × String)
  | [], _ => []
  | (k, v) :: rest, key =>
    if k = key then headerRemove rest key else (k, v) :: headerRemove rest key

/-- `http.Header.Set`: replace any entry with the given key by the new value. -/
def headerSet (h : List (String × String)) (key value : String) : List (String × String) :=
  (key, value) :: headerRemove h key

/-- The parts of `url.URL` that the client core touches. -/
structure URL where
  scheme : String
  host : String
  path : String
  deriving DecidableEq

/-- The parts of `http.Request` that the client core touches.  `body` is the
full contents of the request body reader (`nil` body becomes `none`). -/
structure Request where
  method : String
  url : URL
  header : List (String × String)
  body : Option String
  deriving DecidableEq

/-- `http.NewRequest(method, urlStr, body)` with the URL already parsed
(URL-parse failures are outside the model). Headers start empty. -/
def mkHttpRequest (method : String) (u : URL) (body : Option String) : Request :=
  { method := method, url := u, header := [], body := body }

/-- The `requestModifier` interface: a closed set of the four string-derived
implementations in `api.go` (`TokenAuthenticator`, `Environment`,
`DateFormat`, `ContentType`). -/
inductive RequestModifier where
  | tokenAuthenticator (a : String)
  | environment (e : String)
  | dateFormat (d : String)
  | contentType (c : String)
  deriving DecidableEq

/-- `TokenAuthenticator.modify`: sets the Authorization header. -/
def tokenAuthenticatorModify (a : String) (req : Request) : Request :=
  { req with header := headerSet req.header "Authorization" ("Bearer " ++ a) }

/-- `Environment.modify`: forces the https scheme and, only when the host is
empty, derives the host from the environment name. -/
def environmentModify (e : String) (req : Request) : Request :=
  let u := { req.url with scheme := "https" }
  let u := if u.host = "" then { u with host := "api-" ++ e ++ ".oanda.com" } else u
  { req with url := u }

/-- `DateFormat.modify`: sets the X-Accept-Datetime-Format header. -/
def dateFormatModify (d : String) (req : Request) : Request :=
  { req with header := headerSet req.header "X-Accept-Datetime-Format" d }

/-- `ContentType.modify`: sets the Content-Type header only when the request
carries a body. -/
def contentTypeModify (c : String) (req : Request) : Request :=
  if req.body.isSome then { req with header := headerSet req.header "Content-Type" c } else req

/-- Dispatch of the `requestModifier` interface. -/
def modify : RequestModifier → Request → Request
  | .tokenAuthenticator a, req => tokenAuthenticatorModify a req
  | .environment e, req => environmentModify e req
  | .dateFormat d, req => dateFormatModify d req
  | .contentType c, req => contentTypeModify c req

/-- `defaultDateFormat = DateFormat("UNIX")`. -/
def defaultDateFormat : RequestModifier := .dateFormat "UNIX"

/-- `defaultContentType = ContentType("application/x-www-form-urlencoded")`. -/
def defaultContentType : RequestModifier := .contentType "application/x-www-form-urlencoded"

/-- The `Client` struct: its ordered modifier list and selected account id.
The embedded `*http.Client` transport is passed explicitly to the
operations that dispatch requests. -/
structure Client where
  reqMods : List RequestModifier
  accountId : Nat
  deriving DecidableEq

/-- `newClient`: the two default modifiers first, then the caller-supplied
modifiers in order. -/
def newClient (reqMod : List RequestModifier) : Client :=
  { reqMods := [defaultDateFormat, defaultContentType] ++ reqMod, accountId := 0 }

/-- `NewClient`: validates the environment name and builds the client with an
`Environment` then a `TokenAuthenticator` modifier.  The Go function also
substitutes `DefaultHttpClient` for a nil transport, which the model leaves
to the explicit transport parameter of the dispatching operations. -/
def NewClient (environment token : String) : Except String Client :=
  if environment = "fxpractice" then
    Except.ok (newClient [RequestModifier.environment "fxpractice",
                          RequestModifier.tokenAuthenticator token])
  else if environment = "fxtrade" then
    Except.ok (newClient [RequestModifier.environment "fxtrade",
                          RequestModifier.tokenAuthenticator token])
  else
    Except.error ("Invalid Oanda environment " ++ environment)

/-- `NewFxPracticeClient`: rejects an empty token, then delegates. -/
def NewFxPracticeClient (token : String) : Except String Client :=
  if token = "" then Except.error "No FxPractice access token"
  else NewClient "fxpractice" token

/-- `NewFxTradeClient`: rejects an empty token, then delegates. -/
def NewFxTradeClient (token : String) : Except String Client :=
  if token = "" then Except.error "No FxTrade access token"
  else NewClient "fxtrade" token

/-- `Client.SelectAccount`. -/
def selectAccount (c : Client) (accountId : Nat) : Client :=
  { c with accountId := accountId }

/-- `Client.NewRequest`: build the request and apply every registered
modifier in registration order. -/
def clientNewRequest (c : Client) (method : String) (u : URL) (body : Option String) : Request :=
  c.reqMods.foldl (fun req m => modify m req) (mkHttpRequest method u body)

/-- A JSON value, as decoded from a response body. -/
inductive Json where
  | null
  | bool (b : Bool)
  | num (n : Int)
  | str (s : String)
  | arr (xs : List Json)
  | obj (fields : List (String × Json))

/-- The parts of `http.Response` that the client core touches; `body` is the
decoded JSON contents of the body stream. -/
structure Response where
  statusCode : Nat
  header : List (String × String)
  body : Json

/-- The outcome of `http.Client.Do`: a transport error (nil response), or a
response. -/
inductive TransportOutcome where
  | err (msg : String)
  | response (rsp : Response)

/-- The `ApiError` struct (`json:"code"`, `json:"message"`, `json:"moreInfo"`). -/
structure ApiError where
  Code : Int
  Message : String
  MoreInfo : String
  deriving DecidableEq

/-- `ApiError.Error()`: the `fmt.Sprintf` rendering
`ApiError\x7bCode: %d, Message: %s, Moreinfo: %s\x7d`. -/
def apiErrorString (ae : ApiError) : String :=
  "ApiError\x7bCode: " ++ toString ae.Code ++ ", Message: " ++ ae.Message ++
    ", Moreinfo: " ++ ae.MoreInfo ++ "\x7d"

/-- First JSON object field with the given name. -/
def jsonLookup : List (String × Json) → String → Option Json
  | [], _ => none
  | (k, v) :: rest, key => if k = key then some v else jsonLookup rest key

/-- `encoding/json` decoding of an integer struct field: absent fields keep
the zero value, a number decodes, any other value is an error. -/
def decodeIntField (fields : List (String × Json)) (name : String) : Option Int :=
  match jsonLookup fields name with
  | none => some 0
  | some (Json.num n) => some n
  | some _ => none

/-- `encoding/json` decoding of a string struct field: absent fields keep
the zero value, a string decodes, any other value is an error. -/
def decodeStrField (fields : List (String × Json)) (name : String) : Option String :=
  match jsonLookup fields name with
  | none => some ""
  | some (Json.str s) => some s
  | some _ => none

/-- `json.Decoder.Decode(&apiErr)`: decode a JSON value into the `ApiError`
shape; JSON null leaves the freshly zeroed struct unchanged. -/
def decodeApiError : Json → Option ApiError
  | Json.obj fields =>
    match decodeIntField fields "code", decodeStrField fields "message",
        decodeStrField fields "moreInfo" with
    | some c, some m, some mi => some { Code := c, Message := m, MoreInfo := mi }
    | _, _, _ => none
  | Json.null => some { Code := 0, Message := "", MoreInfo := "" }
  | _ => none

/-- The `PollRequest` struct: the owning client and the held request,
whose headers are mutated between calls. -/
structure PollRequest where
  c : Client
  req : Request

/-- `PollRequest.Poll`: dispatch the held request (the transport argument
plays the role of `pr.c.Do`); on a transport error return `(nil, err)` with
the held request untouched; on success, store a non-empty response ETag as
the If-None-Match header of the held request for the next call, and return
the raw response.  The returned `PollRequest` is the state of `pr` after the
call (Go mutates `pr.req` in place). -/
def pollRequestPoll (transport : Request → TransportOutcome) (pr : PollRequest) :
    PollRequest × Except String Response :=
  match transport pr.req with
  | TransportOutcome.err e => (pr, Except.error e)
  | TransportOutcome.response rsp =>
    let etag := headerGet rsp.header "ETag"
    if etag ≠ "" then
      ({ pr with req := { pr.req with header := headerSet pr.req.header "If-None-Match" etag } },
       Except.ok rsp)
    else
      (pr, Except.ok rsp)

/-- UTF-8 bytes of a character, as Go indexes the bytes of a string. -/
def utf8Bytes (c : Char) : List Nat :=
  let n := c.toNat
  if n < 128 then [n]
  else if n < 2048 then [192 ||| (n >>> 6), 128 ||| (n &&& 63)]
  else if n < 65536 then
    [224 ||| (n >>> 12), 128 ||| ((n >>> 6) &&& 63), 128 ||| (n &&& 63)]
  else
    [240 ||| (n >>> 18), 128 ||| ((n >>> 12) &&& 63), 128 ||| ((n >>> 6) &&& 63),
     128 ||| (n &&& 63)]

/-- A byte `url.QueryEscape` leaves unescaped: alphanumerics and `-_.~`. -/
def isUnreservedByte (b : Nat) : Bool :=
  (65 ≤ b && b ≤ 90) || (97 ≤ b && b ≤ 122) || (48 ≤ b && b ≤ 57) ||
    b = 45 || b = 95 || b = 46 || b = 126

/-- Upper-case hexadecimal digit, as `net/url` percent-encodes. -/
def hexUpperDigit (n : Nat) : Char :=
  if n < 10 then Char.ofNat (48 + n) else Char.ofNat (55 + n)

/-- `url.QueryEscape` on a single byte: space becomes `+`, unreserved bytes
pass through, everything else is percent-encoded. -/
def escapeByte (b : Nat) : String :=
  if b = 32 then "+"
  else if isUnreservedByte b then String.singleton (Char.ofNat b)
  else String.singleton '%' ++ String.singleton (hexUpperDigit (b / 16)) ++
    String.singleton (hexUpperDigit (b % 16))

/-- `url.QueryEscape`. -/
def queryEscape (s : String) : String :=
  String.join (((s.data.map utf8Bytes).flatten).map escapeByte)

/-- Insertion step of `sort.Strings` (ascending byte order). -/
def stringInsert (s : String) : List String → List String
  | [] => [s]
  | t :: rest => if t < s then t :: stringInsert s rest else s :: t :: rest

/-- `sort.Strings`. -/
def stringSort : List String → List String
  | [] => []
  | s :: rest => stringInsert s (stringSort rest)

/-- `url.Values`: a map from keys to lists of values, modelled as an
association list with distinct keys; `len(data)` is the list length. -/
abbrev UrlValues := List (String × List String)

/-- Map lookup `v[k]` on `url.Values` (the nil slice for an absent key). -/
def valuesGet : UrlValues → String → List String
  | [], _ => []
  | (k, vs) :: rest, key => if k = key then vs else valuesGet rest key

/-- `url.Values.Encode`: keys sorted, each value rendered as
`escapedKey=escapedValue`, segments joined by `&`. -/
def valuesEncode (data : UrlValues) : String :=
  let keys := stringSort (data.map Prod.fst)
  String.intercalate "&"
    ((keys.map (fun k => (valuesGet data k).map
      (fun v => queryEscape k ++ "=" ++ queryEscape v))).flatten)

/-- The lifecycle of a response body reader. `closeResponse` drains the
reader into `ioutil.Discard` and closes it. -/
inductive BodyState where
  | open
  | drainedAndClosed
  deriving DecidableEq

/-- `closeResponse`: drain and close the body, whatever its state. -/
def closeResponse : BodyState → BodyState := fun _ => BodyState.drainedAndClosed

/-- The Go `error` returned by `requestAndDecode`. -/
inductive GoError where
  | transport (e : String)
  | decodeFailure
  | api (ae : ApiError)
  deriving DecidableEq

/-- The observable outcome of `requestAndDecode`: the final value of the
caller's target `v` (written through the pointer on a successful decode),
the returned error, and the final state of the response body (`none` when
the transport returned no response). -/
structure ExecutionResult (α : Type) where
  target : α
  err : Option GoError
  bodyState : Option BodyState

/-- The request `requestAndDecode` builds: a form-encoded body when the
parameters are non-empty (`len(data) > 0`), no body otherwise, passed to
`Client.NewRequest`. -/
def buildExecRequest (c : Client) (method : String) (u : URL) (data : UrlValues) : Request :=
  let rdr : Option String := if data.length > 0 then some (valuesEncode data) else none
  clientNewRequest c method u rdr

/-- `requestAndDecode`: build the request, dispatch it, and decode.  A
transport error is returned unchanged (no response body exists).  Otherwise
the deferred `closeResponse` drains and closes the body on every return
path.  Status below 400 decodes the body into the target (`decode` is the
caller-typed `json.Decoder.Decode` into `v`); status 400 or above decodes an
`ApiError` and returns it as the error, the target untouched. -/
def requestAndDecode {α : Type} (transport : Request → TransportOutcome) (c : Client)
    (method : String) (u : URL) (data : UrlValues) (decode : Json → Option α) (v : α) :
    ExecutionResult α :=
  let req := buildExecRequest c method u data
  match transport req with
  | TransportOutcome.err e =>
    { target := v, err := some (GoError.transport e), bodyState := none }
  | TransportOutcome.response rsp =>
    if rsp.statusCode < 400 then
      match decode rsp.body with
      | some x =>
        { target := x, err := none, bodyState := some (closeResponse BodyState.open) }
      | none =>
        { target := v, err := some GoError.decodeFailure,
          bodyState := some (closeResponse BodyState.open) }
    else
      match decodeApiError rsp.body with
      | some ae =>
        { target := v, err := some (GoError.api ae),
          bodyState := some (closeResponse BodyState.open) }
      | none =>
        { target := v, err := some GoError.decodeFailure,
          bodyState := some (closeResponse BodyState.open) }

/-- `getAndDecode`: a GET with no parameters. -/
def getAndDecode {α : Type} (transport : Request → TransportOutcome) (c : Client)
    (u : URL) (decode : Json → Option α) (v : α) : ExecutionResult α :=
  requestAndDecode transport c "GET" u [] decode v

/-! ### The documented per-modifier header effect (from the specification),
used to state the last-writer-wins composition property. -/

/-- The header entry a modifier writes, per its documented effect: bearer
authorization for the token authenticator, the date-format header, the
content-type header only when the request carries a body, and no header at
all for the environment modifier (it touches only the URL). -/
def documentedEffect : RequestModifier → Request → Option (String × String)
  | .tokenAuthenticator a, _ => some ("Authorization", "Bearer " ++ a)
  | .environment _, _ => none
  | .dateFormat d, _ => some ("X-Accept-Datetime-Format", d)
  | .contentType c, req =>
    if req.body.isSome then some ("Content-Type", c) else none

/-- The value the last modifier writing header `k` leaves, threading the
request through the sequence so that each modifier is judged on the request
as left by its predecessors; `none` when no modifier writes `k`. -/
def lastWriter : List RequestModifier → Request → String → Option String
  | [], _, _ => none
  | m :: ms, req, k =>
    match lastWriter ms (modify m req) k with
    | some v => some v
    | none =>
      match documentedEffect m req with
      | some kv => if kv.1 = k then some kv.2 else none
      | none => none

/-! ### Helper lemmas -/

theorem headerGet_headerRemove_ne (h : List (String × String)) (key k : String) (hk : key ≠ k) :
    headerGet (headerRemove h key) k = headerGet h k := by
  induction h with
  | nil => rfl
  | cons p rest ih =>
    obtain ⟨pk, pv⟩ := p
    by_cases hpk : pk = key
    · rw [headerRemove, if_pos hpk, headerGet, if_neg (hpk ▸ hk), ih]
    · rw [headerRemove, if_neg hpk]
      by_cases hpk2 : pk = k
      · rw [headerGet, if_pos hpk2, headerGet, if_pos hpk2]
      · rw [headerGet, if_neg hpk2, headerGet, if_neg hpk2, ih]

theorem headerGet_headerSet (h : List (String × String)) (key value k : String) :
    headerGet (headerSet h key value) k = if key = k then value else headerGet h k := by
  unfold headerSet
  by_cases hk : key = k
  · rw [headerGet, if_pos hk, if_pos hk]
  · rw [headerGet, if_neg hk, if_neg hk]
    exact headerGet_headerRemove_ne h key k hk

theorem modify_header_documentedEffect (m : RequestModifier) (req : Request) (k : String) :
    headerGet (modify m req).header k =
      (match documentedEffect m req with
       | some kv => if kv.1 = k then kv.2 else headerGet req.header k
       | none => headerGet req.header k) := by
  cases m with
  | tokenAuthenticator a =>
    simp only [modify, tokenAuthenticatorModify, documentedEffect]
    exact headerGet_headerSet _ _ _ _
  | environment e => rfl
  | dateFormat d =>
    simp only [modify, dateFormatModify, documentedEffect]
    exact headerGet_headerSet _ _ _ _
  | contentType c =>
    simp only [modify, contentTypeModify, documentedEffect]
    by_cases hb : req.body.isSome
    · simp only [hb, if_pos]
      exact headerGet_headerSet _ _ _ _
    · simp [hb]

theorem lastWriter_cons (m : RequestModifier) (ms : List RequestModifier) (req : Request)
    (k : String) :
    lastWriter (m :: ms) req k =
      (match lastWriter ms (modify m req) k with
       | some v => some v
       | none =>
         match documentedEffect m req with
         | some kv => if kv.1 = k then some kv.2 else none
         | none => none) := rfl

theorem headerGet_foldl_modify (mods : List RequestModifier) (req : Request) (k : String) :
    headerGet (mods.foldl (fun r m => modify m r) req).header k
      = (lastWriter mods req k).getD (headerGet req.header k) := by
  induction mods generalizing req with
  | nil => rfl
  | cons m ms ih =>
    rw [List.foldl_cons, ih (modify m req), lastWriter_cons]
    cases hlw : lastWriter ms (modify m req) k with
    | some v => simp
    | none =>
      simp only [Option.getD_none]
      rw [modify_header_documentedEffect m req k]
      cases hde : documentedEffect m req with
      | none => simp
      | some kv =>
        by_cases hk : kv.1 = k
        · simp [hk]
        · simp [hk]

theorem modify_body_eq (m : RequestModifier) (req : Request) : (modify m req).body = req.body := by
  cases m with
  | tokenAuthenticator a => rfl
  | environment e => rfl
  | dateFormat d => rfl
  | contentType c =>
    simp only [modify, contentTypeModify]
    by_cases hb : req.body.isSome <;> simp [hb]

/-! ### Claims -/

/-- Claim C4: the Environment modifier sets the scheme to https, leaves a
non-empty host unchanged, sets an empty host to exactly
`api-` + environment-name + `.oanda.com`, and applying it twice yields the
same request as applying it once. -/
theorem environmentModify_idempotent_nondestructive (e : String) (req : Request) :
    (environmentModify e req).url.scheme = "https"
    ∧ (req.url.host ≠ "" → (environmentModify e req).url.host = req.url.host)
    ∧ (req.url.host = "" →
        (environmentModify e req).url.host = "api-" ++ e ++ ".oanda.com")
    ∧ environmentModify e (environmentModify e req) = environmentModify e req := by
  obtain ⟨method, ⟨s, h, p⟩, header, body⟩ := req
  by_cases hh : h = "" <;>
    by_cases hd : ("api-" ++ e ++ ".oanda.com" : String) = "" <;>
      simp_all [environmentModify]

/-- Claim C4 witness at concrete requests: a pre-set host is preserved, an
empty host becomes the derived fxpractice host. -/
theorem environmentModify_witness :
    (environmentModify "fxpractice"
        { method := "GET", url := { scheme := "", host := "x.example.com", path := "/" },
          header := [], body := none }).url.host = "x.example.com"
    ∧ (environmentModify "fxpractice"
        { method := "GET", url := { scheme := "", host := "", path := "/" },
          header := [], body := none }).url.host = "api-fxpractice.oanda.com" :=
  ⟨(environmentModify_idempotent_nondestructive "fxpractice"
      { method := "GET", url := { scheme := "", host := "x.example.com", path := "/" },
        header := [], body := none }).2.1 (by decide),
   (environmentModify_idempotent_nondestructive "fxpractice"
      { method := "GET", url := { scheme := "", host := "", path := "/" },
        header := [], body := none }).2.2.1 rfl⟩

/-- Claim C8: the Content-Type modifier leaves a bodyless request entirely
unchanged (so no content-type header gets set), and on a request carrying a
body it sets the content-type header to exactly the configured media type. -/
theorem contentTypeModify_body_cases (c : String) (req : Request) :
    (req.body = none → contentTypeModify c req = req)
    ∧ (∀ b, req.body = some b →
        headerGet (contentTypeModify c req).header "Content-Type" = c) := by
  constructor
  · intro hb
    simp [contentTypeModify, hb]
  · intro b hb
    simp only [contentTypeModify, hb, Option.isSome_some, if_pos]
    rw [headerGet_headerSet, if_pos rfl]

/-- Claim C8 witness at concrete requests: unchanged without a body, exact
media type with one. -/
theorem contentTypeModify_witness :
    contentTypeModify "application/x-www-form-urlencoded"
        { method := "GET", url := { scheme := "", host := "", path := "/" },
          header := [], body := none }
      = { method := "GET", url := { scheme := "", host := "", path := "/" },
          header := [], body := none }
    ∧ headerGet (contentTypeModify "application/x-www-form-urlencoded"
        { method := "POST", url := { scheme := "", host := "", path := "/" },
          header := [], body := some "a=b" }).header "Content-Type"
      = "application/x-www-form-urlencoded" :=
  ⟨(contentTypeModify_body_cases "application/x-www-form-urlencoded"
      { method := "GET", url := { scheme := "", host := "", path := "/" },
        header := [], body := none }).1 rfl,
   (contentTypeModify_body_cases "application/x-www-form-urlencoded"
      { method := "POST", url := { scheme := "", host := "", path := "/" },
        header := [], body := some "a=b" }).2 "a=b" rfl⟩

/-- Claim C5: `Client.NewRequest` applies the registered modifiers in
exactly registration order — date-format then content-type defaults first,
then the caller-supplied modifiers in construction order — and every header
of the built request is the last-writer-wins composition of the modifiers'
documented effects over an initially empty header map (a header set by an
earlier modifier remains unless a later one overwrites it, reflected in
`lastWriter` threading the request through the sequence). -/
theorem newRequest_last_writer_wins (callerMods : List RequestModifier) (method : String)
    (u : URL) (body : Option String) (k : String) :
    (newClient callerMods).reqMods = defaultDateFormat :: defaultContentType :: callerMods
    ∧ headerGet (clientNewRequest (newClient callerMods) method u body).header k
        = (lastWriter (newClient callerMods).reqMods (mkHttpRequest method u body) k).getD "" := by
  refine ⟨rfl, ?_⟩
  exact headerGet_foldl_modify (newClient callerMods).reqMods (mkHttpRequest method u body) k

/-- Claim C2 counterexample: `NewClient` with a recognized environment and an
empty credential returns a client with no error, so construction does not
reject an empty credential. -/
theorem newClient_empty_token_counterexample :
    NewClient "fxpractice" "" =
      Except.ok (newClient [RequestModifier.environment "fxpractice",
                            RequestModifier.tokenAuthenticator ""]) := rfl

/-- Claim C2 (amended): `NewClient` succeeds exactly when the environment
name is one of the two recognized values, with no validation of the
credential; the two named entry points `NewFxPracticeClient` and
`NewFxTradeClient` additionally fail exactly when the credential is empty,
and otherwise return a client with no error. -/
theorem client_construction_validation (environment token : String) :
    ((NewClient environment token).isOk = true
      ↔ (environment = "fxpractice" ∨ environment = "fxtrade"))
    ∧ ((NewFxPracticeClient token).isOk = true ↔ token ≠ "")
    ∧ ((NewFxTradeClient token).isOk = true ↔ token ≠ "") := by
  refine ⟨?_, ?_, ?_⟩
  · unfold NewClient
    by_cases h1 : environment = "fxpractice"
    · simp [h1, Except.isOk, Except.toBool]
    · by_cases h2 : environment = "fxtrade" <;> simp [h1, h2, Except.isOk, Except.toBool]
  · unfold NewFxPracticeClient NewClient
    by_cases h : token = "" <;> simp [h, Except.isOk, Except.toBool]
  · unfold NewFxTradeClient NewClient
    by_cases h : token = "" <;> simp [h, Except.isOk, Except.toBool]

/-- Claim C2 witness at concrete inputs: a valid environment with a
non-empty token succeeds, an unrecognized environment fails, and an empty
token is rejected by the practice entry point. -/
theorem client_construction_witness :
    (NewClient "fxtrade" "tok").isOk = true
    ∧ (NewClient "sandbox" "tok").isOk ≠ true
    ∧ (NewFxPracticeClient "").isOk ≠ true :=
  ⟨(client_construction_validation "fxtrade" "tok").1.mpr (Or.inr rfl),
   fun h => by
     rcases (client_construction_validation "sandbox" "tok").1.mp h with h1 | h1 <;> simp at h1,
   fun h => (client_construction_validation "sandbox" "").2.1.mp h rfl⟩

/-! ### Concrete fixtures for witnesses and the concrete-scenario claim -/

/-- A request URL with no pre-set host. -/
def sampleURL : URL := { scheme := "", host := "", path := "/v1/accounts" }

/-- The client `NewClient "fxpractice" "tok"` returns. -/
def samplePracticeClient : Client :=
  newClient [RequestModifier.environment "fxpractice", RequestModifier.tokenAuthenticator "tok"]

/-- The service-error body of the specification's concrete scenario. -/
def sampleErrorBody : Json :=
  Json.obj [("code", Json.num 1), ("message", Json.str "bad"), ("moreInfo", Json.str "see docs")]

/-- A status-400 response carrying `sampleErrorBody`. -/
def sampleErrorResponse : Response :=
  { statusCode := 400, header := [], body := sampleErrorBody }

/-- A transport that always returns the status-400 error response. -/
def sampleErrorTransport : Request → TransportOutcome :=
  fun _ => TransportOutcome.response sampleErrorResponse

/-- A status-200 response with a numeric body and no ETag header. -/
def sampleOkResponse : Response := { statusCode := 200, header := [], body := Json.num 5 }

/-- A transport that always returns the status-200 response. -/
def sampleOkTransport : Request → TransportOutcome :=
  fun _ => TransportOutcome.response sampleOkResponse

/-- A caller-typed decoder for a numeric body. -/
def decodeNum : Json → Option Int :=
  fun j => match j with | Json.num n => some n | _ => none

/-- A response carrying ETag `abc`. -/
def sampleEtagResponse : Response :=
  { statusCode := 200, header := [("ETag", "abc")], body := Json.null }

/-- A transport that always returns the ETag-carrying response. -/
def sampleEtagTransport : Request → TransportOutcome :=
  fun _ => TransportOutcome.response sampleEtagResponse

/-- A fresh poll request with no conditional header. -/
def samplePollRequest : PollRequest :=
  { c := samplePracticeClient, req := mkHttpRequest "GET" sampleURL none }

/-- A poll request already holding a stored If-None-Match value. -/
def samplePollRequestWithTag : PollRequest :=
  { c := samplePracticeClient,
    req := { method := "GET", url := sampleURL,
             header := [("If-None-Match", "abc")], body := none } }

/-! ### Remaining claims -/

/-- Claim C3: a transport error is returned unchanged with no response; on
success Poll returns the raw undecoded response, and when that response
carries a non-empty ETag the held request — the one the next Poll call
dispatches — has If-None-Match set to exactly that ETag value, while an
absent ETag leaves the held request untouched (so a fresh request carries no
conditional header on the second call). -/
theorem pollRequestPoll_etag_threading (transport : Request → TransportOutcome)
    (pr : PollRequest) :
    (∀ e, transport pr.req = TransportOutcome.err e →
        pollRequestPoll transport pr = (pr, Except.error e))
    ∧ (∀ rsp, transport pr.req = TransportOutcome.response rsp →
        (pollRequestPoll transport pr).2 = Except.ok rsp
        ∧ (headerGet rsp.header "ETag" ≠ "" →
            headerGet (pollRequestPoll transport pr).1.req.header "If-None-Match"
              = headerGet rsp.header "ETag")
        ∧ (headerGet rsp.header "ETag" = "" →
            (pollRequestPoll transport pr).1 = pr)) := by
  constructor
  · intro e he
    simp [pollRequestPoll, he]
  · intro rsp hr
    by_cases het : headerGet rsp.header "ETag" = ""
    · refine ⟨?_, fun hc => absurd het hc, fun _ => ?_⟩ <;>
        simp [pollRequestPoll, hr, het]
    · refine ⟨?_, fun _ => ?_, fun hc => absurd hc het⟩
      · simp [pollRequestPoll, hr, het]
      · simp [pollRequestPoll, hr, het, headerGet_headerSet]

/-- Claim C3 witness: after a poll whose response carries ETag `abc`, the
held request carries If-None-Match `abc`, and the raw response is returned. -/
theorem pollRequestPoll_etag_witness :
    headerGet (pollRequestPoll sampleEtagTransport samplePollRequest).1.req.header
        "If-None-Match" = "abc"
    ∧ (pollRequestPoll sampleEtagTransport samplePollRequest).2
        = Except.ok sampleEtagResponse :=
  ⟨(((pollRequestPoll_etag_threading sampleEtagTransport samplePollRequest).2
      sampleEtagResponse rfl).2.1 (by decide)).trans rfl,
   ((pollRequestPoll_etag_threading sampleEtagTransport samplePollRequest).2
      sampleEtagResponse rfl).1⟩

/-- Claim C10: when the response carries no (or an empty) ETag the held
request is unchanged by Poll, so a stored If-None-Match value is never
cleared and is still present for subsequent polls; a non-empty stored value
also survives every call, and a transport error leaves the held request
unchanged while the error is returned. -/
theorem pollRequestPoll_frame (transport : Request → TransportOutcome) (pr : PollRequest) :
    (∀ rsp, transport pr.req = TransportOutcome.response rsp →
        headerGet rsp.header "ETag" = "" →
        (pollRequestPoll transport pr).1 = pr
        ∧ headerGet (pollRequestPoll transport pr).1.req.header "If-None-Match"
            = headerGet pr.req.header "If-None-Match")
    ∧ (headerGet pr.req.header "If-None-Match" ≠ "" →
        headerGet (pollRequestPoll transport pr).1.req.header "If-None-Match" ≠ "")
    ∧ (∀ e, transport pr.req = TransportOutcome.err e →
        pollRequestPoll transport pr = (pr, Except.error e)) := by
  refine ⟨?_, ?_, ?_⟩
  · intro rsp hr het
    constructor <;> simp [pollRequestPoll, hr, het]
  · intro hstored
    cases ho : transport pr.req with
    | err e => simpa [pollRequestPoll, ho] using hstored
    | response rsp =>
      by_cases het : headerGet rsp.header "ETag" = ""
      · simpa [pollRequestPoll, ho, het] using hstored
      · simp [pollRequestPoll, ho, het, headerGet_headerSet]
  · intro e he
    simp [pollRequestPoll, he]

/-- Claim C10 witness: a poll whose response has no ETag leaves a previously
stored If-None-Match value in place, and a transport error leaves the held
request unchanged. -/
theorem pollRequestPoll_frame_witness :
    (pollRequestPoll sampleOkTransport samplePollRequestWithTag).1 = samplePollRequestWithTag
    ∧ headerGet (pollRequestPoll sampleOkTransport samplePollRequestWithTag).1.req.header
        "If-None-Match" ≠ ""
    ∧ pollRequestPoll (fun _ => TransportOutcome.err "connection refused")
        samplePollRequestWithTag
      = (samplePollRequestWithTag, Except.error "connection refused") :=
  ⟨((pollRequestPoll_frame sampleOkTransport samplePollRequestWithTag).1
      sampleOkResponse rfl rfl).1,
   (pollRequestPoll_frame sampleOkTransport samplePollRequestWithTag).2.1 (by decide),
   (pollRequestPoll_frame (fun _ => TransportOutcome.err "connection refused")
      samplePollRequestWithTag).2.2 "connection refused" rfl⟩

/-- Claim C1: whenever the transport returns a response, `requestAndDecode`
has exactly two branches on the status: below 400 the body is decoded
directly into the caller-supplied target and no `ApiError` is ever the
result (only a decode failure can be); at 400 or above the body is decoded
as an `ApiError` and returned as the error — whatever the target type — and
a decode failure of the error body itself is returned as the error. -/
theorem requestAndDecode_two_branches {α : Type} (transport : Request → TransportOutcome)
    (c : Client) (method : String) (u : URL) (data : UrlValues) (decode : Json → Option α)
    (v : α) (rsp : Response)
    (hrsp : transport (buildExecRequest c method u data) = TransportOutcome.response rsp) :
    (rsp.statusCode < 400 →
        requestAndDecode transport c method u data decode v =
          (match decode rsp.body with
           | some x => { target := x, err := none,
                         bodyState := some BodyState.drainedAndClosed }
           | none => { target := v, err := some GoError.decodeFailure,
                       bodyState := some BodyState.drainedAndClosed }))
    ∧ (rsp.statusCode < 400 → ∀ ae,
        (requestAndDecode transport c method u data decode v).err ≠ some (GoError.api ae))
    ∧ (400 ≤ rsp.statusCode →
        requestAndDecode transport c method u data decode v =
          (match decodeApiError rsp.body with
           | some ae => { target := v, err := some (GoError.api ae),
                          bodyState := some BodyState.drainedAndClosed }
           | none => { target := v, err := some GoError.decodeFailure,
                       bodyState := some BodyState.drainedAndClosed })) := by
  refine ⟨fun h => ?_, fun h ae => ?_, fun h => ?_⟩
  · simp only [requestAndDecode, hrsp, if_pos h]
    cases decode rsp.body <;> rfl
  · simp only [requestAndDecode, hrsp, if_pos h]
    cases decode rsp.body <;> simp
  · simp only [requestAndDecode, hrsp, if_neg (Nat.not_lt.mpr h)]
    cases decodeApiError rsp.body <;> rfl

/-- Claim C1 witness: with a status-200 numeric-body response the target is
populated and no error returned. -/
theorem requestAndDecode_two_branches_witness :
    requestAndDecode sampleOkTransport samplePracticeClient "GET" sampleURL [] decodeNum 0 =
      { target := 5, err := none, bodyState := some BodyState.drainedAndClosed } := by
  have h := (requestAndDecode_two_branches sampleOkTransport samplePracticeClient "GET"
      sampleURL [] decodeNum 0 sampleOkResponse rfl).1 (by decide)
  simpa using h

/-- Claim C6: whenever the transport returns a response, the deferred
`closeResponse` leaves the body drained and closed on every exit path of
`requestAndDecode` — success decode, service-error decode, and decode
failure alike. -/
theorem requestAndDecode_releases_body {α : Type} (transport : Request → TransportOutcome)
    (c : Client) (method : String) (u : URL) (data : UrlValues) (decode : Json → Option α)
    (v : α) (rsp : Response)
    (hrsp : transport (buildExecRequest c method u data) = TransportOutcome.response rsp) :
    (requestAndDecode transport c method u data decode v).bodyState
      = some BodyState.drainedAndClosed := by
  simp only [requestAndDecode, hrsp]
  by_cases h : rsp.statusCode < 400
  · rw [if_pos h]
    cases decode rsp.body <;> rfl
  · rw [if_neg h]
    cases decodeApiError rsp.body <;> rfl

/-- Claim C6 witness: the body is drained and closed on the service-error
path of the concrete status-400 scenario. -/
theorem requestAndDecode_releases_body_witness :
    (requestAndDecode sampleErrorTransport samplePracticeClient "GET" sampleURL []
        decodeNum 0).bodyState = some BodyState.drainedAndClosed :=
  requestAndDecode_releases_body sampleErrorTransport samplePracticeClient "GET" sampleURL []
    decodeNum 0 sampleErrorResponse rfl

/-- Claim C7: on a status-400 response with body
`\x7b"code":1,"message":"bad","moreInfo":"see docs"\x7d`, `requestAndDecode`
returns the decoded `ApiError` whose rendering is exactly
`ApiError\x7bCode: 1, Message: bad, Moreinfo: see docs\x7d`, and the
caller-supplied target is left unchanged even though the caller's decoder
would have succeeded. -/
theorem requestAndDecode_api_error_rendering :
    (requestAndDecode sampleErrorTransport samplePracticeClient "GET" sampleURL []
        (fun _ => some (42 : Nat)) 7).err
      = some (GoError.api { Code := 1, Message := "bad", MoreInfo := "see docs" })
    ∧ (requestAndDecode sampleErrorTransport samplePracticeClient "GET" sampleURL []
        (fun _ => some (42 : Nat)) 7).target = 7
    ∧ apiErrorString { Code := 1, Message := "bad", MoreInfo := "see docs" }
      = "ApiError\x7bCode: 1, Message: bad, Moreinfo: see docs\x7d" :=
  ⟨rfl, rfl, rfl⟩

theorem foldl_modify_body (mods : List RequestModifier) (req : Request) :
    (mods.foldl (fun r m => modify m r) req).body = req.body := by
  induction mods generalizing req with
  | nil => rfl
  | cons m ms ih => rw [List.foldl_cons, ih, modify_body_eq]

/-- Claim C9: for a client built by `NewClient`, the request
`requestAndDecode` builds carries exactly the form encoding of the
parameters as its body when they are non-empty, and no body — and hence no
Content-Type header from the default Content-Type modifier — when they are
empty. -/
theorem buildExecRequest_form_body (environment token : String) (c : Client)
    (hc : NewClient environment token = Except.ok c) (method : String) (u : URL)
    (data : UrlValues) :
    (data ≠ [] → (buildExecRequest c method u data).body = some (valuesEncode data))
    ∧ (data = [] → (buildExecRequest c method u data).body = none
        ∧ headerGet (buildExecRequest c method u data).header "Content-Type" = "") := by
  constructor
  · intro hd
    have hlen : data.length > 0 := List.length_pos.mpr hd
    simp only [buildExecRequest, clientNewRequest, if_pos hlen, foldl_modify_body,
      mkHttpRequest]
  · intro hd
    subst hd
    unfold NewClient at hc
    by_cases h1 : environment = "fxpractice"
    · rw [if_pos h1, Except.ok.injEq] at hc
      subst hc
      constructor <;>
        simp [buildExecRequest, clientNewRequest, newClient, defaultDateFormat,
          defaultContentType, modify, dateFormatModify, contentTypeModify,
          environmentModify, tokenAuthenticatorModify, mkHttpRequest, headerSet,
          headerRemove, headerGet]
    · rw [if_neg h1] at hc
      by_cases h2 : environment = "fxtrade"
      · rw [if_pos h2, Except.ok.injEq] at hc
        subst hc
        constructor <;>
          simp [buildExecRequest, clientNewRequest, newClient, defaultDateFormat,
            defaultContentType, modify, dateFormatModify, contentTypeModify,
            environmentModify, tokenAuthenticatorModify, mkHttpRequest, headerSet,
            headerRemove, headerGet]
      · rw [if_neg h2] at hc
        exact absurd hc (by simp)

/-- Claim C9 witness: concrete non-empty parameters give the form-encoded
body `a=b`; empty parameters give no body and no Content-Type header. -/
theorem buildExecRequest_form_body_witness :
    (buildExecRequest samplePracticeClient "POST" sampleURL [("a", ["b"])]).body = some "a=b"
    ∧ (buildExecRequest samplePracticeClient "GET" sampleURL []).body = none
    ∧ headerGet (buildExecRequest samplePracticeClient "GET" sampleURL []).header
        "Content-Type" = "" :=
  ⟨((buildExecRequest_form_body "fxpractice" "tok" samplePracticeClient rfl "POST"
      sampleURL [("a", ["b"])]).1 (by decide)).trans rfl,
   ((buildExecRequest_form_body "fxpractice" "tok" samplePracticeClient rfl "GET"
      sampleURL []).2 rfl).1,
   ((buildExecRequest_form_body "fxpractice" "tok" samplePracticeClient rfl "GET"
      sampleURL []).2 rfl).2⟩

end Oanda
